import Mathlib

/-!
Shallow embedding of the Moira data-model package (datatypes.go) and of the
pagination normalization of the bleve trigger index (index/bleve/search.go),
with theorems checking the specification claims about them.

Conventions of the embedding:
* Go int64 becomes Int (no arithmetic in the modelled code can overflow at
  the values the theorems talk about);
* Go maps with string keys become association lists; a Go map index
  expression, which yields the zero value on a missing key, becomes a
  lookup with a zero-value default;
* Go float64 pointers become Option Float (never computed with here);
* a nil pointer receiver becomes an Option, and a Go runtime panic
  (out-of-range slice index) becomes the value none of an Option result;
* the wall clock read time.Now().Unix() is passed in as an explicit
  argument.
-/

/-- PlottingData from the source: plotting settings of a subscription. -/
structure PlottingData where
  Enabled : Bool
  Theme : String
deriving Repr, DecidableEq

/-- ScheduleDataDay from the source: one week day of a schedule. -/
structure ScheduleDataDay where
  Enabled : Bool
  Name : String
deriving Repr, DecidableEq

/-- ScheduleData from the source: subscription schedule with per-day flags,
a timezone offset in minutes and a window given in minutes from midnight. -/
structure ScheduleData where
  Days : List ScheduleDataDay
  TimezoneOffset : Int
  StartOffset : Int
  EndOffset : Int
deriving Repr, DecidableEq

/-- SubscriptionData from the source: a user subscription. -/
structure SubscriptionData where
  Contacts : List String
  Tags : List String
  Schedule : ScheduleData
  Plotting : PlottingData
  ID : String
  Enabled : Bool
  IgnoreWarnings : Bool
  IgnoreRecoverings : Bool
  ThrottlingEnabled : Bool
  User : String
deriving Repr, DecidableEq

/-- NotificationEvent from the source: a trigger state-change event. -/
structure NotificationEvent where
  IsTriggerEvent : Bool
  Timestamp : Int
  Metric : String
  Value : Option Float
  State : String
  TriggerID : String
  SubscriptionID : Option String
  ContactID : String
  OldState : String
  Message : Option String

/-- MetricState from the source: metric state data for a given timestamp. -/
structure MetricState where
  EventTimestamp : Int
  State : String
  Suppressed : Bool
  SuppressedState : String
  Timestamp : Int
  Value : Option Float
  Maintenance : Int

/-- CheckData from the source: the last trigger check data. The Go map
metrics (metric name to MetricState) is modelled as an association list. -/
structure CheckData where
  Metrics : List (String × MetricState)
  Score : Int
  State : String
  Maintenance : Int
  Timestamp : Int
  EventTimestamp : Int
  LastSuccessfulCheckTimestamp : Int
  Suppressed : Bool
  SuppressedState : String
  Message : String

/-- Zero value of the Go struct MetricState: every field at its Go zero. -/
def MetricState.zero : MetricState :=
  { EventTimestamp := 0, State := "", Suppressed := false, SuppressedState := "",
    Timestamp := 0, Value := none, Maintenance := 0 }

/-- eventStates from the source: the fixed order of event states. -/
def eventStates : List String :=
  ["OK", "WARN", "ERROR", "NODATA", "EXCEPTION", "TEST"]

/-- scores from the source: the severity weight map used by UpdateScore.
A Go map lookup yields the zero value 0 on any key outside the map. -/
def scores (s : String) : Int :=
  match s with
  | "OK" => 0
  | "DEL" => 0
  | "WARN" => 1
  | "ERROR" => 100
  | "NODATA" => 1000
  | "EXCEPTION" => 100000
  | _ => 0

/-- eventStateWeight from the source: the weight map used by MustIgnore,
with the comma-ok lookup modelled as an Option. -/
def eventStateWeight (s : String) : Option Int :=
  match s with
  | "OK" => some 0
  | "WARN" => some 1
  | "ERROR" => some 100
  | "NODATA" => some 10000
  | _ => none

/-- SubscriptionData.MustIgnore from the source: true when the given state
transition must be ignored for this subscription. Both states must be in
the eventStateWeight map; delta is new weight minus old weight. -/
def SubscriptionData.MustIgnore (subscription : SubscriptionData)
    (eventData : NotificationEvent) : Bool :=
  match eventStateWeight eventData.OldState with
  | none => false
  | some oldStateWeight =>
    match eventStateWeight eventData.State with
    | none => false
    | some newStateWeight =>
      let delta := newStateWeight - oldStateWeight
      if delta < 0 then
        if delta = -1 ∧ (subscription.IgnoreRecoverings = true ∨ subscription.IgnoreWarnings = true) then
          true
        else
          subscription.IgnoreRecoverings
      else if delta = 1 then
        subscription.IgnoreWarnings
      else
        false

/-- CheckData.UpdateScore from the source: sets Score to the weight of the
aggregate state plus the weights of all metric states, and returns it.
Returns the updated CheckData together with the returned score. -/
def CheckData.UpdateScore (checkData : CheckData) : CheckData × Int :=
  let score := checkData.Metrics.foldl
    (fun acc metricData => acc + scores metricData.2.State) (scores checkData.State)
  ({ checkData with Score := score }, score)

/-- NotificationEvents.GetSubjectState from the source: walks the fixed
eventStates order and keeps the last state that occurs in the event list,
starting from the empty string. -/
def NotificationEvents.GetSubjectState (events : List NotificationEvent) : String :=
  eventStates.foldl
    (fun result state => if events.any (fun e => e.State == state) then state else result) ""

/-- Helper for C1 and C10 proofs: sum over the metric association list. -/
theorem foldl_add_scores (l : List (String × MetricState)) (a : Int) :
    l.foldl (fun acc p => acc + scores p.2.State) a
      = a + (l.map fun p => scores p.2.State).sum := by
  induction l generalizing a with
  | nil => simp
  | cons hd tl ih =>
    simp only [List.foldl_cons, List.map_cons, List.sum_cons, ih]
    ring

/-- C1: for every subscription s and event e whose OldState and State both
carry a weight (that is, lie in OK, WARN, ERROR, NODATA), MustIgnore is true
exactly when (delta < 0 and IgnoreRecoverings), or (delta = -1 and
(IgnoreRecoverings or IgnoreWarnings)), or (delta = 1 and IgnoreWarnings),
where delta is weight of State minus weight of OldState. -/
theorem mustIgnore_characterization (s : SubscriptionData) (e : NotificationEvent)
    (w1 w2 : Int)
    (h1 : eventStateWeight e.OldState = some w1)
    (h2 : eventStateWeight e.State = some w2) :
    s.MustIgnore e = true ↔
      ((w2 - w1 < 0 ∧ s.IgnoreRecoverings = true) ∨
       (w2 - w1 = -1 ∧ (s.IgnoreRecoverings = true ∨ s.IgnoreWarnings = true)) ∨
       (w2 - w1 = 1 ∧ s.IgnoreWarnings = true)) := by
  unfold SubscriptionData.MustIgnore
  rw [h1, h2]
  cases hr : s.IgnoreRecoverings <;> cases hw : s.IgnoreWarnings <;>
    simp only [hr, hw] <;> split_ifs <;> simp_all <;> omega

/-- Closed instance of C1: a subscription ignoring warnings must ignore the
transition OK to WARN (delta = 1). -/
theorem mustIgnore_characterization_witness :
    SubscriptionData.MustIgnore
      { Contacts := [], Tags := [], Schedule := ⟨[], 0, 0, 0⟩,
        Plotting := ⟨false, ""⟩, ID := "", Enabled := true,
        IgnoreWarnings := true, IgnoreRecoverings := false,
        ThrottlingEnabled := false, User := "" }
      { IsTriggerEvent := false, Timestamp := 0, Metric := "m", Value := none,
        State := "WARN", TriggerID := "t", SubscriptionID := none,
        ContactID := "", OldState := "OK", Message := none } = true :=
  (mustIgnore_characterization
      { Contacts := [], Tags := [], Schedule := ⟨[], 0, 0, 0⟩,
        Plotting := ⟨false, ""⟩, ID := "", Enabled := true,
        IgnoreWarnings := true, IgnoreRecoverings := false,
        ThrottlingEnabled := false, User := "" }
      { IsTriggerEvent := false, Timestamp := 0, Metric := "m", Value := none,
        State := "WARN", TriggerID := "t", SubscriptionID := none,
        ContactID := "", OldState := "OK", Message := none }
      0 1 rfl rfl).mpr (by norm_num)

/-- C10: when OldState or State lies outside the eventStateWeight map,
MustIgnore returns false whatever the ignore flags are. -/
theorem mustIgnore_unknown_state_false (s : SubscriptionData) (e : NotificationEvent)
    (h : eventStateWeight e.OldState = none ∨ eventStateWeight e.State = none) :
    s.MustIgnore e = false := by
  unfold SubscriptionData.MustIgnore
  rcases h with h | h
  · rw [h]
  · cases heq : eventStateWeight e.OldState with
    | none => rfl
    | some w => rw [h]

/-- Closed instance of C10: an EXCEPTION to OK transition is never ignored,
even with both ignore flags set. -/
theorem mustIgnore_unknown_state_false_witness :
    SubscriptionData.MustIgnore
      { Contacts := [], Tags := [], Schedule := ⟨[], 0, 0, 0⟩,
        Plotting := ⟨false, ""⟩, ID := "", Enabled := true,
        IgnoreWarnings := true, IgnoreRecoverings := true,
        ThrottlingEnabled := false, User := "" }
      { IsTriggerEvent := false, Timestamp := 0, Metric := "m", Value := none,
        State := "OK", TriggerID := "t", SubscriptionID := none,
        ContactID := "", OldState := "EXCEPTION", Message := none } = false :=
  mustIgnore_unknown_state_false _ _ (Or.inl rfl)

/-- C2: after UpdateScore, both the stored and the returned score equal the
weight of the aggregate state plus the sum of the weights of all metric
states, under the scores table (OK=0, DEL=0, WARN=1, ERROR=100, NODATA=1000,
EXCEPTION=100000, any other state 0 as a Go map lookup yields). -/
theorem updateScore_eq_weight_sum (c : CheckData) :
    (c.UpdateScore).1.Score
        = scores c.State + (c.Metrics.map fun p => scores p.2.State).sum ∧
      (c.UpdateScore).2
        = scores c.State + (c.Metrics.map fun p => scores p.2.State).sum := by
  unfold CheckData.UpdateScore
  simp [foldl_add_scores]

/-- Helper: a true any-result yields an event carrying the given state. -/
theorem any_state_true {events : List NotificationEvent} {s : String}
    (hs : (events.any fun e => e.State == s) = true) :
    ∃ e ∈ events, e.State = s := by
  obtain ⟨e, he, hb⟩ := List.any_eq_true.mp hs
  exact ⟨e, he, by simpa using hb⟩

/-- Helper: a false any-result means no event carries the given state. -/
theorem any_state_false {events : List NotificationEvent} {s : String}
    (hs : (events.any fun e => e.State == s) = false) :
    ∀ e ∈ events, e.State ≠ s := by
  intro e he
  have h2 := List.any_eq_false.mp hs e he
  simpa using h2

/-- C6: for every non-empty list of events whose states all lie in
eventStates, GetSubjectState returns a state present in the list, and every
state present in the list occurs no later than the returned one in the fixed
order OK, WARN, ERROR, NODATA, EXCEPTION, TEST (so the returned state is the
most critical one under that order). -/
theorem getSubjectState_most_critical (events : List NotificationEvent)
    (hne : events ≠ [])
    (hin : ∀ e ∈ events, e.State ∈ eventStates) :
    (∃ e ∈ events, e.State = NotificationEvents.GetSubjectState events) ∧
      ∀ e ∈ events,
        eventStates.indexOf e.State
          ≤ eventStates.indexOf (NotificationEvents.GetSubjectState events) := by
  cases hTEST : events.any fun e => e.State == "TEST" with
  | true =>
    have hres : NotificationEvents.GetSubjectState events = "TEST" := by
      simp only [NotificationEvents.GetSubjectState, eventStates, List.foldl_cons,
        List.foldl_nil, hTEST]
      simp
    rw [hres]
    refine ⟨any_state_true hTEST, ?_⟩
    intro e he
    have hmem := hin e he
    simp only [eventStates, List.mem_cons, List.not_mem_nil, or_false] at hmem
    rcases hmem with h | h | h | h | h | h <;> rw [h] <;> decide
  | false =>
    cases hEXC : events.any fun e => e.State == "EXCEPTION" with
    | true =>
      have hres : NotificationEvents.GetSubjectState events = "EXCEPTION" := by
        simp only [NotificationEvents.GetSubjectState, eventStates, List.foldl_cons,
          List.foldl_nil, hTEST, hEXC]
        simp
      rw [hres]
      refine ⟨any_state_true hEXC, ?_⟩
      intro e he
      have hmem := hin e he
      simp only [eventStates, List.mem_cons, List.not_mem_nil, or_false] at hmem
      rcases hmem with h | h | h | h | h | h <;>
        first
          | (rw [h] <;> decide)
          | exact absurd h (any_state_false hTEST e he)
    | false =>
      cases hNOD : events.any fun e => e.State == "NODATA" with
      | true =>
        have hres : NotificationEvents.GetSubjectState events = "NODATA" := by
          simp only [NotificationEvents.GetSubjectState, eventStates, List.foldl_cons,
            List.foldl_nil, hTEST, hEXC, hNOD]
          simp
        rw [hres]
        refine ⟨any_state_true hNOD, ?_⟩
        intro e he
        have hmem := hin e he
        simp only [eventStates, List.mem_cons, List.not_mem_nil, or_false] at hmem
        rcases hmem with h | h | h | h | h | h <;>
          first
            | (rw [h] <;> decide)
            | exact absurd h (any_state_false hTEST e he)
            | exact absurd h (any_state_false hEXC e he)
      | false =>
        cases hERR : events.any fun e => e.State == "ERROR" with
        | true =>
          have hres : NotificationEvents.GetSubjectState events = "ERROR" := by
            simp only [NotificationEvents.GetSubjectState, eventStates, List.foldl_cons,
              List.foldl_nil, hTEST, hEXC, hNOD, hERR]
            simp
          rw [hres]
          refine ⟨any_state_true hERR, ?_⟩
          intro e he
          have hmem := hin e he
          simp only [eventStates, List.mem_cons, List.not_mem_nil, or_false] at hmem
          rcases hmem with h | h | h | h | h | h <;>
            first
              | (rw [h] <;> decide)
              | exact absurd h (any_state_false hTEST e he)
              | exact absurd h (any_state_false hEXC e he)
              | exact absurd h (any_state_false hNOD e he)
        | false =>
          cases hWARN : events.any fun e => e.State == "WARN" with
          | true =>
            have hres : NotificationEvents.GetSubjectState events = "WARN" := by
              simp only [NotificationEvents.GetSubjectState, eventStates, List.foldl_cons,
                List.foldl_nil, hTEST, hEXC, hNOD, hERR, hWARN]
              simp
            rw [hres]
            refine ⟨any_state_true hWARN, ?_⟩
            intro e he
            have hmem := hin e he
            simp only [eventStates, List.mem_cons, List.not_mem_nil, or_false] at hmem
            rcases hmem with h | h | h | h | h | h <;>
              first
                | (rw [h] <;> decide)
                | exact absurd h (any_state_false hTEST e he)
                | exact absurd h (any_state_false hEXC e he)
                | exact absurd h (any_state_false hNOD e he)
                | exact absurd h (any_state_false hERR e he)
          | false =>
            cases hOK : events.any fun e => e.State == "OK" with
            | true =>
              have hres : NotificationEvents.GetSubjectState events = "OK" := by
                simp only [NotificationEvents.GetSubjectState, eventStates, List.foldl_cons,
                  List.foldl_nil, hTEST, hEXC, hNOD, hERR, hWARN, hOK]
                simp
              rw [hres]
              refine ⟨any_state_true hOK, ?_⟩
              intro e he
              have hmem := hin e he
              simp only [eventStates, List.mem_cons, List.not_mem_nil, or_false] at hmem
              rcases hmem with h | h | h | h | h | h <;>
                first
                  | (rw [h] <;> decide)
                  | exact absurd h (any_state_false hTEST e he)
                  | exact absurd h (any_state_false hEXC e he)
                  | exact absurd h (any_state_false hNOD e he)
                  | exact absurd h (any_state_false hERR e he)
                  | exact absurd h (any_state_false hWARN e he)
            | false =>
              exfalso
              obtain ⟨e, he⟩ := List.exists_mem_of_ne_nil events hne
              have hmem := hin e he
              simp only [eventStates, List.mem_cons, List.not_mem_nil, or_false] at hmem
              rcases hmem with h | h | h | h | h | h
              · exact absurd h (any_state_false hOK e he)
              · exact absurd h (any_state_false hWARN e he)
              · exact absurd h (any_state_false hERR e he)
              · exact absurd h (any_state_false hNOD e he)
              · exact absurd h (any_state_false hEXC e he)
              · exact absurd h (any_state_false hTEST e he)

/-- Weekday of a UNIX instant as Go time.Weekday (Sunday = 0): the day
number since the epoch (floor division, as the Go time package computes it
also before 1970) plus 4, because 1 January 1970 was a Thursday, modulo 7. -/
def goWeekday (t : Int) : Int :=
  (t.fdiv 86400 + 4) % 7

/-- Day index into ScheduleData.Days used by the source, int(Weekday+6)%7:
it maps Monday to 0 and Sunday to 6. -/
def scheduleDayIndex (t : Int) : Nat :=
  ((goWeekday t + 6) % 7).toNat

/-- ScheduleData.IsScheduleAllows from the source. The receiver is a Go
pointer, modelled as an Option (nil yields true). The result is an Option
Bool where none models the runtime panic raised when the Days slice is
shorter than the computed day index. Go integer % is truncated remainder,
modelled by Int.tmod; time.Unix, Add, Before, After and Equal are instant
arithmetic and comparisons on the underlying seconds. -/
def IsScheduleAllows (schedule : Option ScheduleData) (ts : Int) : Option Bool :=
  match schedule with
  | none => some true
  | some schedule =>
    let endOffset := if schedule.EndOffset < schedule.StartOffset
      then schedule.EndOffset + 24 * 60 else schedule.EndOffset
    let startOffset := schedule.StartOffset
    let timestamp := ts - Int.tmod ts 60 - schedule.TimezoneOffset * 60
    (schedule.Days.get? (scheduleDayIndex timestamp)).map fun day =>
      if day.Enabled = false then false
      else
        let dayStart := timestamp - Int.tmod timestamp (24 * 3600)
        let startDayTime := dayStart + startOffset * 60
        let endDayTime := dayStart + endOffset * 60
        if endOffset < 24 * 60 then
          decide (startDayTime ≤ timestamp ∧ timestamp ≤ endDayTime)
        else
          decide (timestamp < endDayTime - 24 * 3600 ∨ startDayTime < timestamp)

/-- Minute of the day of a nonnegative instant, a helper for stating the
schedule claims. -/
def minuteOfDay (t : Int) : Int :=
  t % 86400 / 60

/-- C3 (amended): for a wrap-around schedule (endOffset < startOffset, with
a nonnegative endOffset), when the relevant day entry exists and is enabled
and the timezone-adjusted minute timestamp t is nonnegative,
IsScheduleAllows holds exactly on (startOffset, 1440) together with
[0, endOffset) in local minutes of day: the lower bound is strict, so the
minute exactly equal to startOffset is denied. -/
theorem isScheduleAllows_wraparound (s : ScheduleData) (ts t m : Int)
    (day : ScheduleDataDay)
    (hwrap : s.EndOffset < s.StartOffset) (hend : 0 ≤ s.EndOffset)
    (hteq : t = ts - Int.tmod ts 60 - s.TimezoneOffset * 60) (ht : 0 ≤ t)
    (hday : s.Days.get? (scheduleDayIndex t) = some day)
    (hen : day.Enabled = true)
    (hmeq : m = minuteOfDay t) :
    (IsScheduleAllows (some s) ts = some true ↔
      (s.StartOffset < m ∧ m < 1440) ∨ (0 ≤ m ∧ m < s.EndOffset)) := by
  subst hmeq
  subst hteq
  have hts := Int.tdiv_add_tmod ts 60
  have htm : Int.tmod (ts - Int.tmod ts 60 - s.TimezoneOffset * 60) (24 * 3600)
      = (ts - Int.tmod ts 60 - s.TimezoneOffset * 60) % (24 * 3600) :=
    Int.tmod_eq_emod ht (by norm_num)
  simp only [IsScheduleAllows, minuteOfDay, hday, Option.map_some', Option.some.injEq,
    hen, if_pos hwrap, htm]
  rw [if_neg (show ¬(true = false) by simp)]
  rw [if_neg (show ¬(s.EndOffset + 24 * 60 < 24 * 60) by omega)]
  simp only [decide_eq_true_eq]
  omega

/-- Closed instance for C3 (amended): a 22:00 to 06:00 schedule allows
23:00 local time. -/
theorem isScheduleAllows_wraparound_witness :
    IsScheduleAllows (some ⟨List.replicate 7 ⟨true, ""⟩, 0, 1320, 360⟩) 82800
      = some true :=
  (isScheduleAllows_wraparound ⟨List.replicate 7 ⟨true, ""⟩, 0, 1320, 360⟩ 82800 82800
      1380 ⟨true, ""⟩ (by decide) (by decide) (by decide) (by decide) (by decide)
      (by decide) (by decide)).mpr (by decide)

/-- Counterexample to C3 as stated: with the wrap-around schedule 22:00 to
06:00 (startOffset 1320, endOffset 360, timezone 0, all days enabled), the
instant 79200 falls exactly on minute-of-day 1320 = startOffset, which the
claim places inside the allowed window, yet IsScheduleAllows returns false
because the source compares the start bound strictly in the wrap branch. -/
theorem isScheduleAllows_wraparound_counterexample :
    minuteOfDay 79200 = 1320 ∧
      IsScheduleAllows (some ⟨List.replicate 7 ⟨true, ""⟩, 0, 1320, 360⟩) 79200
        = some false := by
  constructor
  · decide
  · decide

/-- C4 (amended): when endOffset equals startOffset (with the offset inside
a day), the window is not empty: for a timezone-adjusted nonnegative minute
timestamp whose day entry exists, IsScheduleAllows returns true exactly
when the day is enabled and the local minute of day equals startOffset,
because the non-wrap branch of the source compares both bounds
inclusively. -/
theorem isScheduleAllows_equal_offsets (s : ScheduleData) (ts t m : Int)
    (day : ScheduleDataDay)
    (heq : s.EndOffset = s.StartOffset)
    (h0 : 0 ≤ s.StartOffset) (h1440 : s.StartOffset < 1440)
    (hteq : t = ts - Int.tmod ts 60 - s.TimezoneOffset * 60) (ht : 0 ≤ t)
    (hday : s.Days.get? (scheduleDayIndex t) = some day)
    (hmeq : m = minuteOfDay t) :
    IsScheduleAllows (some s) ts
      = some (day.Enabled && decide (m = s.StartOffset)) := by
  subst hmeq
  subst hteq
  have hts := Int.tdiv_add_tmod ts 60
  have htm : Int.tmod (ts - Int.tmod ts 60 - s.TimezoneOffset * 60) (24 * 3600)
      = (ts - Int.tmod ts 60 - s.TimezoneOffset * 60) % (24 * 3600) :=
    Int.tmod_eq_emod ht (by norm_num)
  simp only [IsScheduleAllows, minuteOfDay, hday, Option.map_some', Option.some.injEq,
    htm, if_neg (show ¬(s.EndOffset < s.StartOffset) by omega)]
  rw [if_pos (show s.EndOffset < 24 * 60 by omega)]
  cases hEn : day.Enabled with
  | false =>
    simp [hEn]
  | true =>
    simp only [hEn, Bool.true_and]
    rw [if_neg (show ¬(true = false) by simp)]
    rw [decide_eq_decide]
    omega

/-- Closed instance for C4 (amended): with startOffset = endOffset = 0 and
all days enabled, the minute 2 of the day (instant 120) is denied. -/
theorem isScheduleAllows_equal_offsets_witness :
    IsScheduleAllows (some ⟨List.replicate 7 ⟨true, ""⟩, 0, 0, 0⟩) 120
      = some false :=
  (isScheduleAllows_equal_offsets ⟨List.replicate 7 ⟨true, ""⟩, 0, 0, 0⟩ 120 120 2
      ⟨true, ""⟩ (by decide) (by decide) (by decide) (by decide) (by decide)
      (by decide) (by decide)).trans (by decide)

/-- Counterexample to C4 as stated: the schedule with
startOffset = endOffset = 0 and all days enabled accepts the instant 0
(midnight, minute-of-day 0), while the claim says such a window denies
every timestamp. -/
theorem isScheduleAllows_equal_offsets_counterexample :
    IsScheduleAllows (some ⟨List.replicate 7 ⟨true, ""⟩, 0, 0, 0⟩) 0
      = some true := by
  decide

/-- C5: IsScheduleAllows is total: a nil schedule allows every timestamp,
and a schedule whose Days slice has the seven required entries never
panics (the Days indexing stays in bounds), whatever the timestamp and the
offsets are. -/
theorem isScheduleAllows_total :
    (∀ ts : Int, IsScheduleAllows none ts = some true) ∧
      ∀ (s : ScheduleData) (ts : Int), s.Days.length = 7 →
        (IsScheduleAllows (some s) ts).isSome = true := by
  refine ⟨fun ts => rfl, fun s ts hlen => ?_⟩
  have hidx : scheduleDayIndex (ts - Int.tmod ts 60 - s.TimezoneOffset * 60)
      < s.Days.length := by
    rw [hlen]
    unfold scheduleDayIndex
    omega
  have hsome := List.get?_eq_get hidx
  simp only [IsScheduleAllows, hsome, Option.map_some', Option.isSome_some]

/-- Closed instance of C5: the nil schedule allows the instant 0, and a
schedule with seven day entries yields a boolean at the instant 5. -/
theorem isScheduleAllows_total_witness :
    IsScheduleAllows none 0 = some true ∧
      (IsScheduleAllows (some ⟨List.replicate 7 ⟨false, ""⟩, 30, 10, 5⟩) 5).isSome
        = true :=
  ⟨isScheduleAllows_total.1 0,
    isScheduleAllows_total.2 ⟨List.replicate 7 ⟨false, ""⟩, 30, 10, 5⟩ 5 (by decide)⟩

/-- Concrete event list for the C6 witness: one OK event and one ERROR
event. -/
def subjectStateEvents : List NotificationEvent :=
  [{ IsTriggerEvent := false, Timestamp := 0, Metric := "m1", Value := none,
     State := "OK", TriggerID := "t", SubscriptionID := none, ContactID := "",
     OldState := "NODATA", Message := none },
   { IsTriggerEvent := true, Timestamp := 1, Metric := "m2", Value := none,
     State := "ERROR", TriggerID := "t", SubscriptionID := none, ContactID := "",
     OldState := "OK", Message := none }]

/-- Closed instance of C6: on an OK event and an ERROR event, the subject
state is a state of the list and no state of the list comes later in the
fixed order. -/
theorem getSubjectState_most_critical_witness :
    (∃ e ∈ subjectStateEvents,
        e.State = NotificationEvents.GetSubjectState subjectStateEvents) ∧
      ∀ e ∈ subjectStateEvents,
        eventStates.indexOf e.State
          ≤ eventStates.indexOf (NotificationEvents.GetSubjectState subjectStateEvents) :=
  getSubjectState_most_critical subjectStateEvents (by simp [subjectStateEvents])
    (by
      intro e he
      simp only [subjectStateEvents, List.mem_cons, List.not_mem_nil, or_false] at he
      rcases he with rfl | rfl <;> simp [eventStates])

/-- Go map index with the zero-value default: checkData.Metrics[metric]. -/
def metricsIndex (metrics : List (String × MetricState)) (metric : String) : MetricState :=
  (metrics.lookup metric).getD MetricState.zero

/-- createEmptyMetricState from the source: NODATA at the given default
timestamp when firstStateIsNodata, else OK with both timestamps at the wall
clock (time.Now().Unix(), passed in as now). The fields the Go struct
literals omit stay at their zero values. -/
def createEmptyMetricState (defaultTimestampValue : Int) (firstStateIsNodata : Bool)
    (now : Int) : MetricState :=
  if firstStateIsNodata then
    { MetricState.zero with State := "NODATA", Timestamp := defaultTimestampValue }
  else
    { MetricState.zero with State := "OK", Timestamp := now, EventTimestamp := now }

/-- CheckData.GetOrCreateMetricState from the source: inserts a fresh empty
state when the metric key is missing (note the negation: muteNewMetric
false means the first state is NODATA) and returns the map entry for the
metric. Returns the updated CheckData together with the returned state. -/
def CheckData.GetOrCreateMetricState (checkData : CheckData) (metric : String)
    (emptyTimestampValue : Int) (muteNewMetric : Bool) (now : Int) :
    CheckData × MetricState :=
  let checkData2 :=
    if (checkData.Metrics.lookup metric).isSome then checkData
    else { checkData with
      Metrics := (metric, createEmptyMetricState emptyTimestampValue (!muteNewMetric) now)
        :: checkData.Metrics }
  (checkData2, metricsIndex checkData2.Metrics metric)

/-- C7: for a metric absent from the map, GetOrCreateMetricState inserts and
returns a NODATA state with Timestamp equal to the given default and
EventTimestamp 0 when muteNewMetric is false, and an OK state with both
timestamps equal to the wall clock when muteNewMetric is true; for a metric
already present, the map is unchanged and the stored state is returned. -/
theorem getOrCreateMetricState_spec (c : CheckData) (metric : String)
    (emptyTimestampValue now : Int) :
    (c.Metrics.lookup metric = none →
      c.GetOrCreateMetricState metric emptyTimestampValue false now
          = ({ c with Metrics := (metric,
                { EventTimestamp := 0, State := "NODATA", Suppressed := false,
                  SuppressedState := "", Timestamp := emptyTimestampValue,
                  Value := none, Maintenance := 0 }) :: c.Metrics },
             { EventTimestamp := 0, State := "NODATA", Suppressed := false,
               SuppressedState := "", Timestamp := emptyTimestampValue,
               Value := none, Maintenance := 0 }) ∧
        c.GetOrCreateMetricState metric emptyTimestampValue true now
          = ({ c with Metrics := (metric,
                { EventTimestamp := now, State := "OK", Suppressed := false,
                  SuppressedState := "", Timestamp := now,
                  Value := none, Maintenance := 0 }) :: c.Metrics },
             { EventTimestamp := now, State := "OK", Suppressed := false,
               SuppressedState := "", Timestamp := now,
               Value := none, Maintenance := 0 })) ∧
      ∀ st, c.Metrics.lookup metric = some st →
        ∀ (mute : Bool) (now2 : Int),
          c.GetOrCreateMetricState metric emptyTimestampValue mute now2 = (c, st) := by
  constructor
  · intro hnone
    constructor <;>
      simp [CheckData.GetOrCreateMetricState, hnone, metricsIndex,
        createEmptyMetricState, MetricState.zero, List.lookup]
  · intro st hst mute now2
    simp [CheckData.GetOrCreateMetricState, hst, metricsIndex]

/-- Empty CheckData in state OK, for the C7 witness. -/
def emptyOkCheckData : CheckData :=
  { Metrics := [], Score := 0, State := "OK", Maintenance := 0, Timestamp := 0,
    EventTimestamp := 0, LastSuccessfulCheckTimestamp := 0, Suppressed := false,
    SuppressedState := "", Message := "" }

/-- NODATA metric state at timestamp 42, for the C7 witness. -/
def nodataStateAt42 : MetricState :=
  { EventTimestamp := 0, State := "NODATA", Suppressed := false,
    SuppressedState := "", Timestamp := 42, Value := none, Maintenance := 0 }

/-- Closed instance of C7: inserting into an empty metrics map with
muteNewMetric false yields the NODATA state at the default timestamp 42. -/
theorem getOrCreateMetricState_spec_witness :
    CheckData.GetOrCreateMetricState emptyOkCheckData "m1" 42 false 100
      = ({ emptyOkCheckData with Metrics := [("m1", nodataStateAt42)] },
         nodataStateAt42) :=
  ((getOrCreateMetricState_spec emptyOkCheckData "m1" 42 100).1 rfl).1

/-- Fuel-based floor of the base-2 logarithm: with fuel at least the bit
length of n, logTwoFuel fuel n is the exponent k with 2 ^ k ≤ n < 2 ^ (k+1)
for n ≥ 1. Structural recursion on the fuel keeps it kernel-evaluable. -/
def logTwoFuel : Nat → Nat → Nat
  | 0, _ => 0
  | fuel + 1, n => if 2 ≤ n then logTwoFuel fuel (n / 2) + 1 else 0

/-- Value of the IEEE-754 binary64 number nearest to the natural number a,
under round-to-nearest-ties-to-even: exact up to 2 ^ 53; beyond, a is
rounded to a multiple of 2 ^ (k - 52) where k is the exponent of its
binade. This models the Go conversion float64(x) for 0 ≤ x < 2 ^ 63, whose
results are all integers. -/
def float64RoundNat (a : Nat) : Nat :=
  if a ≤ 2 ^ 53 then a
  else
    let k := logTwoFuel 64 a
    let step := 2 ^ (k - 52)
    let q := a / step
    let r := a % step
    if 2 * r < step then q * step
    else if step < 2 * r then (q + 1) * step
    else if q % 2 = 0 then q * step else (q + 1) * step

/-- Go float64(x) for an int64 x: the IEEE-754 conversion is symmetric in
the sign. -/
def float64RoundInt (x : Int) : Int :=
  if x < 0 then - (float64RoundNat (-x).toNat : Int) else (float64RoundNat x.toNat : Int)

/-- MetricState.GetCheckPoint from the source:
int64(math.Max(float64(Timestamp - checkPointGap), float64(EventTimestamp))).
Both int64 operands go through float64 (modelled by float64RoundInt),
math.Max takes the larger value, and the conversion back to int64 is the
identity because the float values here are integers. -/
def MetricState.GetCheckPoint (metricState : MetricState) (checkPointGap : Int) : Int :=
  max (float64RoundInt (metricState.Timestamp - checkPointGap))
    (float64RoundInt metricState.EventTimestamp)

/-- Helper: the float64 conversion is exact on magnitudes up to 2 ^ 53. -/
theorem float64RoundInt_eq_self (x : Int) (h : x.natAbs ≤ 2 ^ 53) :
    float64RoundInt x = x := by
  have hnat : ∀ a : Nat, a ≤ 2 ^ 53 → float64RoundNat a = a := by
    intro a ha
    unfold float64RoundNat
    rw [if_pos ha]
  unfold float64RoundInt
  split_ifs with hx
  · rw [hnat (-x).toNat (by omega)]
    omega
  · rw [hnat x.toNat (by omega)]
    omega

/-- C8 (amended): GetCheckPoint returns max(Timestamp - gap, EventTimestamp)
whenever both operands have magnitude at most 2 ^ 53, so that the float64
conversions inside math.Max are exact. Beyond 2 ^ 53 the conversion rounds
and the formula can be off. -/
theorem getCheckPoint_eq_max (s : MetricState) (gap : Int)
    (h1 : (s.Timestamp - gap).natAbs ≤ 2 ^ 53)
    (h2 : s.EventTimestamp.natAbs ≤ 2 ^ 53) :
    s.GetCheckPoint gap = max (s.Timestamp - gap) s.EventTimestamp := by
  unfold MetricState.GetCheckPoint
  rw [float64RoundInt_eq_self _ h1, float64RoundInt_eq_self _ h2]

/-- Closed instance of C8 (amended): at Timestamp 1000, EventTimestamp 950
and gap 120, the check point is 950. -/
theorem getCheckPoint_eq_max_witness :
    MetricState.GetCheckPoint
        { EventTimestamp := 950, State := "OK", Suppressed := false,
          SuppressedState := "", Timestamp := 1000, Value := none,
          Maintenance := 0 } 120
      = max ((1000 : Int) - 120) 950 :=
  getCheckPoint_eq_max
    { EventTimestamp := 950, State := "OK", Suppressed := false,
      SuppressedState := "", Timestamp := 1000, Value := none,
      Maintenance := 0 } 120 (by norm_num) (by norm_num)

/-- Counterexample to C8 as stated: at Timestamp 2 ^ 53 + 1 with gap 0 and
EventTimestamp 0, the float64 conversion rounds 9007199254740993 down to
9007199254740992 (ties to even), so GetCheckPoint differs from the exact
max(Timestamp - gap, EventTimestamp). -/
theorem getCheckPoint_counterexample :
    MetricState.GetCheckPoint
        { EventTimestamp := 0, State := "OK", Suppressed := false,
          SuppressedState := "", Timestamp := 9007199254740993, Value := none,
          Maintenance := 0 } 0
      ≠ max ((9007199254740993 : Int) - 0) 0 := by
  decide

/-- Pagination of TriggerIndex.Search from the source, applied to the list
of matching documents ranked by the index. The normalization is the code
of Search: if size < 0 then page = 0 and size = the index document count.
Modelled from the spec: the underlying search engine (bleve, an external
library) serves the request window as the slice of the ranked matching
documents starting at offset page * size and of length size. -/
def searchPage (matchingDocs : List String) (docCount : Int) (page size : Int) :
    List String :=
  let page2 := if size < 0 then (0 : Int) else page
  let size2 := if size < 0 then docCount else size
  let fromIdx := page2 * size2
  (matchingDocs.drop fromIdx.toNat).take size2.toNat

/-- C9: with a negative size, the search behaves as if page were 0 and size
were the total number of indexed documents, so the whole matching result
set (never larger than the index) comes back in one page. -/
theorem search_negative_size_returns_all (matchingDocs : List String)
    (docCount page size : Int)
    (hcount : (matchingDocs.length : Int) ≤ docCount) (hsize : size < 0) :
    searchPage matchingDocs docCount page size = matchingDocs := by
  unfold searchPage
  rw [if_pos hsize, if_pos hsize]
  simp only [Int.zero_mul, Int.toNat_zero, List.drop_zero]
  exact List.take_of_length_le (by omega)

/-- Closed instance of C9: three matching documents out of a three-document
index all come back when size = -1, whatever the page argument. -/
theorem search_negative_size_returns_all_witness :
    searchPage ["t1", "t2", "t3"] 3 7 (-1) = ["t1", "t2", "t3"] :=
  search_negative_size_returns_all ["t1", "t2", "t3"] 3 7 (-1) (by norm_num)
    (by norm_num)
